import Mathlib

/-!
Verification of the heatwave rendering-engine shim.

Shallow embedding of the relevant parts of the source:
  src/src/gpu.rs        (GpuConnection)
  src/src/rendering.rs  (SimpleRenderPipelineDescriptor conversion)
  src/src/lib.rs        (HeatwaveApp resource registries, pipeline defaulting,
                         HeatwaveRunner::default_handler message protocol)

GPU-side objects (wgpu Device, Queue, Surface, shader modules, the actual
pipeline/buffer objects returned by the backend) are external collaborators:
a created GPU object is fully determined by the descriptor the code passes to
the backend, so the embedding stores the (fully substituted) descriptor in the
place of the created object.  Abstract external handles are modelled as `Nat`
identifiers.
-/

set_option maxHeartbeats 1000000

namespace Heatwave

/-! ## Basic wgpu data model -/

/-- External handle to a compiled shader module (`wgpu::ShaderModule`). -/
abbrev ShaderModule := Nat

/-- Vertex-buffer layout descriptor (`wgpu::VertexBufferLayout`); pure data,
no behaviour, modelled as an abstract identifier. -/
abbrev VertexBufferLayout := Nat

/-- Bind-group layout descriptor (`wgpu::BindGroupLayoutDescriptor`),
modelled as an abstract identifier. -/
abbrev BindGroupLayoutDescriptor := Nat

/-- Push-constant range (`wgpu::PushConstantRange`), modelled as an abstract
identifier. -/
abbrev PushConstantRange := Nat

/-- Colour-write bitmask (`wgpu::ColorWrites`). -/
abbrev ColorWrites := Nat

/-- The constant `wgpu::ColorWrites::ALL` (all four channels enabled). -/
def ColorWrites.ALL : ColorWrites := 15

/-- Texture formats (`wgpu::TextureFormat`).  Only the formats the claims
touch are distinguished by name; the rest are covered by `Other`, which
records whether the format is sRGB. -/
inductive TextureFormat where
  | Rgba8Unorm
  | Rgba8UnormSrgb
  | Bgra8Unorm
  | Bgra8UnormSrgb
  | Depth32Float
  | Other (id : Nat) (srgb : Bool)
deriving DecidableEq, Repr

/-- Mirrors `wgpu::TextureFormat::is_srgb`. -/
def TextureFormat.is_srgb : TextureFormat → Bool
  | .Rgba8UnormSrgb => true
  | .Bgra8UnormSrgb => true
  | .Other _ srgb => srgb
  | _ => false

/-- Blend state (`wgpu::BlendState`).  The source only ever uses the
`REPLACE` constant; other states are abstract. -/
inductive BlendState where
  | REPLACE
  | Other (id : Nat)
deriving DecidableEq, Repr

/-- Mirrors `wgpu::ColorTargetState`. -/
structure ColorTargetState where
  format : TextureFormat
  blend : Option BlendState
  write_mask : ColorWrites
deriving DecidableEq, Repr

/-- Mirrors `wgpu::PresentMode`; the source only uses `AutoVsync`. -/
inductive PresentMode where
  | AutoVsync
  | Other (id : Nat)
deriving DecidableEq, Repr

/-- Mirrors `wgpu::CompositeAlphaMode`. -/
inductive CompositeAlphaMode where
  | Auto
  | Opaque
  | PreMultiplied
  | PostMultiplied
  | Inherit
deriving DecidableEq, Repr

/-- Texture-usage bitmask (`wgpu::TextureUsages`). -/
abbrev TextureUsages := Nat

/-- The constant `wgpu::TextureUsages::RENDER_ATTACHMENT` (bit 4). -/
def TextureUsages.RENDER_ATTACHMENT : TextureUsages := 16

/-- Mirrors `winit::dpi::PhysicalSize<u32>`. -/
structure PhysicalSize where
  width : Nat
  height : Nat
deriving DecidableEq, Repr

/-- Mirrors `wgpu::SurfaceConfiguration` as constructed in src/src/gpu.rs. -/
structure SurfaceConfiguration where
  usage : TextureUsages
  format : TextureFormat
  width : Nat
  height : Nat
  present_mode : PresentMode
  alpha_mode : CompositeAlphaMode
  view_formats : List TextureFormat
  desired_maximum_frame_latency : Nat
deriving DecidableEq, Repr

/-- Mirrors `wgpu::PipelineLayout`: the created layout object is determined by
the `wgpu::PipelineLayoutDescriptor` handed to `create_pipeline_layout`, so the
embedding records those descriptor fields. -/
structure PipelineLayout where
  label : Option String
  bind_group_layouts : List BindGroupLayoutDescriptor
  push_constant_ranges : List PushConstantRange
deriving DecidableEq, Repr

/-- Mirrors `wgpu::VertexState`. -/
structure VertexState where
  module : ShaderModule
  entry_point : String
  buffers : List VertexBufferLayout
deriving DecidableEq, Repr

/-- Mirrors `wgpu::FragmentState`. -/
structure FragmentState where
  module : ShaderModule
  entry_point : String
  targets : List (Option ColorTargetState)
deriving DecidableEq, Repr

/-- Mirrors `wgpu::PrimitiveTopology`. -/
inductive PrimitiveTopology where
  | PointList
  | LineList
  | LineStrip
  | TriangleList
  | TriangleStrip
deriving DecidableEq, Repr

/-- Mirrors `wgpu::IndexFormat`. -/
inductive IndexFormat where
  | Uint16
  | Uint32
deriving DecidableEq, Repr

/-- Mirrors `wgpu::FrontFace`. -/
inductive FrontFace where
  | Ccw
  | Cw
deriving DecidableEq, Repr

/-- Mirrors `wgpu::Face`. -/
inductive Face where
  | Front
  | Back
deriving DecidableEq, Repr

/-- Mirrors `wgpu::PolygonMode`. -/
inductive PolygonMode where
  | Fill
  | Line
  | Point
deriving DecidableEq, Repr

/-- Mirrors `wgpu::PrimitiveState`. -/
structure PrimitiveState where
  topology : PrimitiveTopology
  strip_index_format : Option IndexFormat
  front_face : FrontFace
  cull_mode : Option Face
  unclipped_depth : Bool
  polygon_mode : PolygonMode
  conservative : Bool
deriving DecidableEq, Repr

/-- Mirrors `wgpu::CompareFunction`; only `Less` is used by the source. -/
inductive CompareFunction where
  | Less
  | Other (id : Nat)
deriving DecidableEq, Repr

/-- Mirrors `wgpu::DepthStencilState`.  The stencil and bias sub-records are
only ever built with `default()` by the source, so they are abstract
identifiers here with `0` standing for the default value. -/
structure DepthStencilState where
  format : TextureFormat
  depth_write_enabled : Bool
  depth_compare : CompareFunction
  stencil : Nat
  bias : Nat
deriving DecidableEq, Repr

/-- Mirrors `wgpu::MultisampleState`.  `mask` is a `u64` bitmask. -/
structure MultisampleState where
  count : Nat
  mask : Nat
  alpha_to_coverage_enabled : Bool
deriving DecidableEq, Repr

/-- Mirrors `wgpu::RenderPipelineDescriptor` as used by the source. -/
structure RenderPipelineDescriptor where
  label : Option String
  layout : Option PipelineLayout
  vertex : VertexState
  fragment : Option FragmentState
  primitive : PrimitiveState
  depth_stencil : Option DepthStencilState
  multisample : MultisampleState
  multiview : Option Nat
deriving DecidableEq, Repr

/-- Mirrors `wgpu::ComputePipelineDescriptor` as used by the source. -/
structure ComputePipelineDescriptor where
  label : Option String
  layout : Option PipelineLayout
  module : ShaderModule
  entry_point : String
deriving DecidableEq, Repr

/-- Mirrors `wgpu::BufferDescriptor`. -/
structure BufferDescriptor where
  label : Option String
  size : Nat
  usage : Nat
  mapped_at_creation : Bool
deriving DecidableEq, Repr

/-! ## src/src/gpu.rs : GpuConnection -/

/-- Mirrors `wgpu::SurfaceCapabilities` (the two fields the source reads). -/
structure SurfaceCapabilities where
  formats : List TextureFormat
  alpha_modes : List CompositeAlphaMode
deriving DecidableEq, Repr

/-- The surface-format choice made at gpu.rs lines 74-77: the first
sRGB-capable supported format, falling back to `formats[0]`.  The index
expression `formats[0]` panics on an empty list, modelled as `none`. -/
def chooseSurfaceFormat (formats : List TextureFormat) : Option TextureFormat :=
  match formats.find? (fun f => f.is_srgb) with
  | some f => some f
  | none => formats.head?

/-- The `wgpu::SurfaceConfiguration` literal built at gpu.rs lines 79-88.
`alpha_modes[0]` panics on an empty list, modelled as `none`. -/
def buildSurfaceConfiguration (caps : SurfaceCapabilities) (size : PhysicalSize) :
    Option SurfaceConfiguration :=
  match chooseSurfaceFormat caps.formats, caps.alpha_modes.head? with
  | some fmt, some alpha =>
      some { usage := TextureUsages.RENDER_ATTACHMENT
             format := fmt
             width := size.width
             height := size.height
             present_mode := PresentMode.AutoVsync
             alpha_mode := alpha
             view_formats := []
             desired_maximum_frame_latency := 2 }
  | _, _ => none

/-- State of `GpuConnection` (gpu.rs lines 9-25).  The `surface`, `device`
and `queue` fields are opaque external handles with no modelled state and are
therefore omitted from the record. -/
structure GpuConnection where
  surface_config : SurfaceConfiguration
  texture_size : PhysicalSize
deriving DecidableEq, Repr

/-- Mirrors `GpuConnectionErrorKind` (gpu.rs lines 125-129); the wrapped
backend error values are abstract identifiers. -/
inductive GpuConnectionErrorKind where
  | SurfaceCreation (error : Nat)
  | DeviceRequest (error : Nat)
  | CompatibleAdapterNotFound
deriving DecidableEq, Repr

/-- The individual pieces of GPU work performed by `GpuConnection::new`,
used to record which external calls a run of `new` has attempted. -/
inductive GpuStep where
  | createInstance
  | createSurface
  | requestAdapter
  | requestDevice
  | getCapabilities
  | configureSurface
deriving DecidableEq, Repr

/-- Outcomes of the external calls made by `GpuConnection::new`, supplied by
the environment (the wgpu backend). -/
structure GpuEnv where
  create_surface : Except Nat Unit
  request_adapter : Option Unit
  request_device : Except Nat Unit
  capabilities : SurfaceCapabilities
deriving Repr

/-- Result of `GpuConnection::new`: a Rust panic, a typed connection error, or
a connection value. -/
inductive NewOutcome where
  | panicked (msg : String)
  | failed (error : GpuConnectionErrorKind)
  | connected (conn : GpuConnection)
deriving DecidableEq, Repr

/-- Embeds `GpuConnection::new` (gpu.rs lines 36-107), returning the outcome
together with the trace of GPU steps attempted, in source order: the size
assertion runs first; then instance and surface creation, adapter request,
device request (the future is created, then the capabilities are read and the
surface configuration is built, and only then is the device future awaited),
and finally the surface is configured. -/
def GpuConnection.new (size : PhysicalSize) (env : GpuEnv) :
    NewOutcome × List GpuStep :=
  if size.width > 0 ∧ size.height > 0 then
    match env.create_surface with
    | .error e =>
        (.failed (.SurfaceCreation e), [.createInstance, .createSurface])
    | .ok _ =>
        match env.request_adapter with
        | none =>
            (.failed .CompatibleAdapterNotFound,
             [.createInstance, .createSurface, .requestAdapter])
        | some _ =>
            let steps := [GpuStep.createInstance, .createSurface,
                          .requestAdapter, .requestDevice, .getCapabilities]
            match buildSurfaceConfiguration env.capabilities size with
            | none => (.panicked "index out of bounds", steps)
            | some cfg =>
                match env.request_device with
                | .error e => (.failed (.DeviceRequest e), steps)
                | .ok _ =>
                    (.connected { surface_config := cfg, texture_size := size },
                     steps ++ [.configureSurface])
  else
    (.panicked "Window size has to be above 0!", [])

/-- Modelled from the spec: `GpuConnection` in src/src/gpu.rs exposes no
`reconfigure` operation, but the spec (section 4.2 and the section 8
scenario) requires `reconfigure(new-size)`, invoked on window client-size
change, to reject a zero-area size without mutating stored state and
otherwise to update the stored surface configuration in place.  The returned
flag reports whether the call was accepted. -/
def GpuConnection.reconfigure (conn : GpuConnection) (size : PhysicalSize) :
    GpuConnection × Bool :=
  if size.width = 0 ∨ size.height = 0 then
    (conn, false)
  else
    ({ conn with
        surface_config := { conn.surface_config with
                              width := size.width, height := size.height }
        texture_size := size },
     true)

/-! ## src/src/rendering.rs : simplified pipeline descriptor -/

/-- The depth format constant `Texture::DEPTH_FORMAT` (rendering.rs line 127). -/
def Texture.DEPTH_FORMAT : TextureFormat := TextureFormat.Depth32Float

/-- Mirrors `SimpleRenderPipelineDescriptor` (rendering.rs lines 59-72). -/
structure SimpleRenderPipelineDescriptor where
  name : String
  vertex : ShaderModule
  fragment : Option ShaderModule
  vertex_entry_point : String
  fragment_entry_point : Option String
  vertex_buffer_format : List VertexBufferLayout
deriving DecidableEq, Repr

/-- Embeds the `From<SimpleRenderPipelineDescriptor> for
RenderPipelineDescriptor` conversion (rendering.rs lines 81-118).  The
`expect` on the missing fragment entry-point name is a Rust panic, modelled
as `none`; it is evaluated only when a fragment module is present, because it
sits inside `val.fragment.map`. -/
def SimpleRenderPipelineDescriptor.toDescriptor
    (val : SimpleRenderPipelineDescriptor) : Option RenderPipelineDescriptor :=
  let fragmentState : Option (Option FragmentState) :=
    match val.fragment with
    | none => some none
    | some m =>
        match val.fragment_entry_point with
        | none => none
        | some ep => some (some { module := m, entry_point := ep, targets := [] })
  fragmentState.map (fun frag =>
    { label := some val.name
      layout := none
      vertex := { module := val.vertex
                  entry_point := val.vertex_entry_point
                  buffers := val.vertex_buffer_format }
      fragment := frag
      primitive := { topology := PrimitiveTopology.TriangleList
                     strip_index_format := none
                     front_face := FrontFace.Ccw
                     cull_mode := some Face.Back
                     unclipped_depth := false
                     polygon_mode := PolygonMode.Fill
                     conservative := false }
      depth_stencil := some { format := Texture.DEPTH_FORMAT
                              depth_write_enabled := true
                              depth_compare := CompareFunction.Less
                              stencil := 0
                              bias := 0 }
      multisample := { count := 8
                       mask := 2 ^ 64 - 1
                       alpha_to_coverage_enabled := false }
      multiview := none })

/-! ## src/src/lib.rs : HeatwaveApp and its resource registries -/

/-- The fields of `HeatwaveConfig` (lib.rs lines 448-537) that the verified
code reads.  Window-construction options, the skybox colour and the logger
options are value-passing to external collaborators and are omitted. -/
structure HeatwaveConfig where
  power_preference : Nat
  name : String
  features : Nat
  bind_groups : List BindGroupLayoutDescriptor
  push_constants : List PushConstantRange
deriving DecidableEq, Repr

/-- State of `HeatwaveApp` (lib.rs lines 24-40).  Each `HashMap<usize, _>` is
modelled as an insertion list of key-value pairs in which a later `insert`
shadows an earlier entry with the same key, matching `HashMap::insert`
semantics under lookup.  The created GPU objects are represented by the
descriptors handed to the device, which fully determine them. -/
structure HeatwaveApp where
  connection : GpuConnection
  buffers : List (Nat × BufferDescriptor)
  next_buffer_id : Nat
  render_pipelines : List (Nat × RenderPipelineDescriptor)
  compute_pipelines : List (Nat × ComputePipelineDescriptor)
  next_render_id : Nat
  next_compute_id : Nat
  pipeline_layout : PipelineLayout
deriving DecidableEq, Repr

/-- Lookup in a modelled `HashMap<usize, A>`: the most recent insertion of a
key wins. -/
def lookupEntry {A : Type} (entries : List (Nat × A)) (id : Nat) : Option A :=
  (entries.find? (fun e => e.fst == id)).map Prod.snd

/-- The pipeline-layout construction in `HeatwaveApp::new_with_window`
(lib.rs lines 97-101).  The source passes a hard-coded empty
`bind_group_layouts` slice (bind groups are a todo in the source) and the
push-constant ranges from the configuration. -/
def makePipelineLayout (config : HeatwaveConfig) : PipelineLayout :=
  { label := some "Heatwave Render Pipeline Layout"
    bind_group_layouts := []
    push_constant_ranges := config.push_constants }

/-- The state constructed by `HeatwaveApp::new_with_window` (lib.rs lines
88-115) once the window, the event loop and the GPU connection have been
obtained from the external collaborators. -/
def HeatwaveApp.new_with_window (config : HeatwaveConfig)
    (connection : GpuConnection) : HeatwaveApp :=
  { connection := connection
    buffers := []
    next_buffer_id := 0
    render_pipelines := []
    compute_pipelines := []
    next_compute_id := 0
    next_render_id := 0
    pipeline_layout := makePipelineLayout config }

/-- Embeds `HeatwaveApp::add_buffer` (lib.rs lines 122-130): create the
buffer from the descriptor, insert it at the current counter, increment the
counter, return its previous value. -/
def HeatwaveApp.add_buffer (self : HeatwaveApp) (descriptor : BufferDescriptor) :
    Nat × HeatwaveApp :=
  (self.next_buffer_id,
   { self with
      buffers := (self.next_buffer_id, descriptor) :: self.buffers
      next_buffer_id := self.next_buffer_id + 1 })

/-- The descriptor substitution performed by `HeatwaveApp::add_render_pipeline`
(lib.rs lines 157-172): fill in the shared pipeline layout when the
descriptor supplies none, and when a fragment stage is present with an empty
target list synthesize one colour target from the surface format of the
connection, with `REPLACE` blending and all channels write-enabled. -/
def buildRenderDescriptor (layout : PipelineLayout) (sc : SurfaceConfiguration)
    (descriptor : RenderPipelineDescriptor) : RenderPipelineDescriptor :=
  let desc := if descriptor.layout.isNone then
                { descriptor with layout := some layout }
              else descriptor
  match desc.fragment with
  | some fragment =>
      if fragment.targets.isEmpty then
        { desc with
            fragment := some { fragment with
              targets := [some { format := sc.format
                                 blend := some BlendState.REPLACE
                                 write_mask := ColorWrites.ALL }] } }
      else desc
  | none => desc

/-- Embeds `HeatwaveApp::add_render_pipeline` (lib.rs lines 156-178). -/
def HeatwaveApp.add_render_pipeline (self : HeatwaveApp)
    (descriptor : RenderPipelineDescriptor) : Nat × HeatwaveApp :=
  let desc := buildRenderDescriptor self.pipeline_layout
                self.connection.surface_config descriptor
  (self.next_render_id,
   { self with
      render_pipelines := (self.next_render_id, desc) :: self.render_pipelines
      next_render_id := self.next_render_id + 1 })

/-- The descriptor substitution performed by
`HeatwaveApp::add_compute_pipeline` (lib.rs lines 186-189): fill in the
shared pipeline layout when the descriptor supplies none; nothing else. -/
def buildComputeDescriptor (layout : PipelineLayout)
    (descriptor : ComputePipelineDescriptor) : ComputePipelineDescriptor :=
  if descriptor.layout.isNone then { descriptor with layout := some layout }
  else descriptor

/-- Embeds `HeatwaveApp::add_compute_pipeline` (lib.rs lines 185-195). -/
def HeatwaveApp.add_compute_pipeline (self : HeatwaveApp)
    (descriptor : ComputePipelineDescriptor) : Nat × HeatwaveApp :=
  let desc := buildComputeDescriptor self.pipeline_layout descriptor
  (self.next_compute_id,
   { self with
      compute_pipelines := (self.next_compute_id, desc) :: self.compute_pipelines
      next_compute_id := self.next_compute_id + 1 })

/-- Read access to the buffer registry (the `HashMap` lookup by handle). -/
def HeatwaveApp.get_buffer (self : HeatwaveApp) (id : Nat) :
    Option BufferDescriptor :=
  lookupEntry self.buffers id

/-- Read access to the render-pipeline registry. -/
def HeatwaveApp.get_render_pipeline (self : HeatwaveApp) (id : Nat) :
    Option RenderPipelineDescriptor :=
  lookupEntry self.render_pipelines id

/-- Read access to the compute-pipeline registry. -/
def HeatwaveApp.get_compute_pipeline (self : HeatwaveApp) (id : Nat) :
    Option ComputePipelineDescriptor :=
  lookupEntry self.compute_pipelines id

/-- A sequence of `add_buffer` calls; returns the issued handles in order
together with the final state. -/
def HeatwaveApp.addBuffers (self : HeatwaveApp) (ds : List BufferDescriptor) :
    List Nat × HeatwaveApp :=
  match ds with
  | [] => ([], self)
  | d :: rest =>
      let r1 := self.add_buffer d
      let r2 := r1.2.addBuffers rest
      (r1.1 :: r2.1, r2.2)

/-- A sequence of `add_render_pipeline` calls. -/
def HeatwaveApp.addRenderPipelines (self : HeatwaveApp)
    (ds : List RenderPipelineDescriptor) : List Nat × HeatwaveApp :=
  match ds with
  | [] => ([], self)
  | d :: rest =>
      let r1 := self.add_render_pipeline d
      let r2 := r1.2.addRenderPipelines rest
      (r1.1 :: r2.1, r2.2)

/-- A sequence of `add_compute_pipeline` calls. -/
def HeatwaveApp.addComputePipelines (self : HeatwaveApp)
    (ds : List ComputePipelineDescriptor) : List Nat × HeatwaveApp :=
  match ds with
  | [] => ([], self)
  | d :: rest =>
      let r1 := self.add_compute_pipeline d
      let r2 := r1.2.addComputePipelines rest
      (r1.1 :: r2.1, r2.2)

/-! ## src/src/lib.rs : HeatwaveRunner::default_handler message protocol

The user thread communicates with the OS thread through two mpsc channels.
The embedding views the to-presenter channel as the list of messages the OS
thread will receive in order; exhausting the list stands for a disconnected
channel (`recv` returning `Err`).  The observable behaviour of the OS thread
is recorded as a list of actions. -/

/-- Mirrors `UserEvent` (lib.rs lines 420-424), the messages sent from the
user thread to the OS thread.  `R` is the render-data type. -/
inductive UserEvent (R : Type) where
  | ReadyToClose
  | RenderDataPrepared (data : R)
deriving DecidableEq, Repr

/-- True exactly on `RenderDataPrepared`. -/
def UserEvent.isRenderData {R : Type} : UserEvent R → Bool
  | .RenderDataPrepared _ => true
  | .ReadyToClose => false

/-- The heatwave `WindowEvent` vocabulary sent to the user thread (lib.rs
lines 336-388).  Only the synthetic member the verified claims inspect is
distinguished; the 1:1 translated OS events are collapsed into `ordinary`. -/
inductive WindowEventMsg where
  | RequestRenderData
  | ordinary (id : Nat)
deriving DecidableEq, Repr

/-- Observable actions of the OS thread inside `default_handler`. -/
inductive OsAction (R : Type) where
  | sendToUser (msg : WindowEventMsg)
  | logError (msg : String)
  | logWarn (msg : String)
  | invokeRender (data : R)
  | panic (msg : String)
  | exitTarget
deriving DecidableEq, Repr

/-- True exactly on `sendToUser`. -/
def OsAction.isSend {R : Type} : OsAction R → Bool
  | .sendToUser _ => true
  | _ => false

/-- True exactly on `invokeRender`. -/
def OsAction.isRender {R : Type} : OsAction R → Bool
  | .invokeRender _ => true
  | _ => false

/-- True exactly on `panic`. -/
def OsAction.isPanic {R : Type} : OsAction R → Bool
  | .panic _ => true
  | _ => false

/-- True exactly on `logError`. -/
def OsAction.isLogError {R : Type} : OsAction R → Bool
  | .logError _ => true
  | _ => false

/-- Number of messages sent to the user thread in an action list. -/
def sendCount {R : Type} (acts : List (OsAction R)) : Nat :=
  acts.countP OsAction.isSend

/-- Number of render-callback invocations in an action list. -/
def renderCount {R : Type} (acts : List (OsAction R)) : Nat :=
  acts.countP OsAction.isRender

/-- Number of panics in an action list. -/
def panicCount {R : Type} (acts : List (OsAction R)) : Nat :=
  acts.countP OsAction.isPanic

/-- Number of error-log lines in an action list. -/
def errorLogCount {R : Type} (acts : List (OsAction R)) : Nat :=
  acts.countP OsAction.isLogError

/-- The wait loop of the `RedrawRequested` arm (lib.rs lines 280-288): each
`recv` either delivers the first pending message or, when the channel is
exhausted (the user thread is gone), returns `Err`, which the source turns
into a panic via `expect`.  A `RenderDataPrepared` message invokes the render
callback once and breaks; any other message is discarded with an error log
and the loop keeps waiting. -/
def redrawLoop {R : Type} : List (UserEvent R) → List (OsAction R)
  | [] => [.panic "The user event thread exited early! Cannot render frame"]
  | .RenderDataPrepared d :: _ => [.invokeRender d]
  | .ReadyToClose :: rest =>
      .logError "Desync between render and user event thread! Ignoring non-render data response from user"
        :: redrawLoop rest

/-- The `RedrawRequested` arm of `default_handler` (lib.rs lines 278-289):
send the synthetic `RequestRenderData` message to the user thread, then block
on the to-presenter channel in `redrawLoop`. -/
def default_handler_redraw {R : Type} (incoming : List (UserEvent R)) :
    List (OsAction R) :=
  .sendToUser .RequestRenderData :: redrawLoop incoming

/-- Whether the close wait loop terminates.  `completed rest` means the
`break` statement was reached with `rest` still unread; `stuck` means the
loop can never reach `break`. -/
inductive CloseOutcome (R : Type) where
  | completed (rest : List (UserEvent R))
  | stuck
deriving DecidableEq, Repr

/-- The wait loop of the `CloseRequested` arm (lib.rs lines 293-301).  A
`ReadyToClose` message breaks out of the loop; any other message is discarded
with an error log.  The `Err` arm of the source logs the warning
"User thread closed improperly!" but contains no `break`: once the channel is
disconnected every further `recv` returns `Err` again, so the loop re-enters
the same arm forever.  The embedding records the first warning and marks the
outcome `stuck`. -/
def closeLoop {R : Type} : List (UserEvent R) → List (OsAction R) × CloseOutcome R
  | [] => ([.logWarn "User thread closed improperly!"], .stuck)
  | .ReadyToClose :: rest => ([], .completed rest)
  | .RenderDataPrepared _ :: rest =>
      let r := closeLoop rest
      (.logError "Desync between render and user event thread! Ignoring non-closing response from user"
         :: r.1, r.2)

/-- The `CloseRequested` arm of `default_handler` (lib.rs lines 290-301):
tell the OS layer to begin shutdown via `args.target.exit()`, then block on
the to-presenter channel in `closeLoop`. -/
def default_handler_close {R : Type} (incoming : List (UserEvent R)) :
    List (OsAction R) × CloseOutcome R :=
  (.exitTarget :: (closeLoop incoming).1, (closeLoop incoming).2)

/-- The first render-data payload pending on the to-presenter channel, if
any; used to state which data the render callback receives. -/
def firstRenderData {R : Type} : List (UserEvent R) → Option R
  | [] => none
  | .RenderDataPrepared d :: _ => some d
  | .ReadyToClose :: rest => firstRenderData rest

/-! ## Concrete sample values used by the witness theorems -/

/-- A concrete surface configuration (800 by 600). -/
def sampleSurfaceConfig : SurfaceConfiguration :=
  { usage := TextureUsages.RENDER_ATTACHMENT
    format := TextureFormat.Bgra8UnormSrgb
    width := 800
    height := 600
    present_mode := PresentMode.AutoVsync
    alpha_mode := CompositeAlphaMode.Auto
    view_formats := []
    desired_maximum_frame_latency := 2 }

/-- A concrete connection configured at 800 by 600. -/
def sampleConnection : GpuConnection :=
  { surface_config := sampleSurfaceConfig, texture_size := ⟨800, 600⟩ }

/-- A concrete startup configuration. -/
def sampleConfig : HeatwaveConfig :=
  { power_preference := 0
    name := "Heatwave App"
    features := 0
    bind_groups := []
    push_constants := [] }

/-- A freshly constructed application state. -/
def sampleApp : HeatwaveApp := HeatwaveApp.new_with_window sampleConfig sampleConnection

/-- A concrete environment in which all external GPU calls succeed. -/
def sampleEnv : GpuEnv :=
  { create_surface := .ok ()
    request_adapter := some ()
    request_device := .ok ()
    capabilities := { formats := [TextureFormat.Bgra8Unorm, TextureFormat.Bgra8UnormSrgb]
                      alpha_modes := [CompositeAlphaMode.Auto] } }

/-- Concrete surface capabilities: a non-sRGB format followed by an sRGB one. -/
def sampleCaps : SurfaceCapabilities :=
  { formats := [TextureFormat.Bgra8Unorm, TextureFormat.Bgra8UnormSrgb]
    alpha_modes := [CompositeAlphaMode.Auto] }

/-- A concrete fragment stage with an empty target list. -/
def sampleFragment : FragmentState :=
  { module := 2, entry_point := "fs_main", targets := [] }

/-- A concrete render-pipeline descriptor with no layout and an empty
fragment target list. -/
def sampleRenderDescriptor : RenderPipelineDescriptor :=
  { label := some "sample"
    layout := none
    vertex := { module := 1, entry_point := "vs_main", buffers := [] }
    fragment := some sampleFragment
    primitive := { topology := PrimitiveTopology.TriangleList
                   strip_index_format := none
                   front_face := FrontFace.Ccw
                   cull_mode := some Face.Back
                   unclipped_depth := false
                   polygon_mode := PolygonMode.Fill
                   conservative := false }
    depth_stencil := none
    multisample := { count := 1, mask := 1, alpha_to_coverage_enabled := false }
    multiview := none }

/-- A concrete compute-pipeline descriptor with no layout. -/
def sampleComputeDescriptor : ComputePipelineDescriptor :=
  { label := some "sample compute", layout := none, module := 3, entry_point := "cs_main" }

/-- A concrete simplified descriptor with a fragment module but no fragment
entry-point name. -/
def sampleSimpleDescriptor : SimpleRenderPipelineDescriptor :=
  { name := "sample pipeline"
    vertex := 1
    fragment := some 2
    vertex_entry_point := "vs_main"
    fragment_entry_point := none
    vertex_buffer_format := [] }

/-! ## Helper lemmas -/

/-- Lookup into a freshly inserted entry hits the new value; other keys fall
through to the previous entries. -/
theorem lookupEntry_cons {A : Type} (k : Nat) (v : A) (es : List (Nat × A)) (i : Nat) :
    lookupEntry ((k, v) :: es) i = if k = i then some v else lookupEntry es i := by
  by_cases h : k = i
  · rw [if_pos h]
    unfold lookupEntry
    rw [List.find?_cons_of_pos _ (by simp [h])]
    rfl
  · rw [if_neg h]
    unfold lookupEntry
    rw [List.find?_cons_of_neg _ (by simp [h])]

/-- A successful `find?` splits its list at the found element, and no
element before the split point satisfies the predicate. -/
theorem find_first_split {A : Type} (p : A → Bool) (l : List A) (a : A)
    (h : l.find? p = some a) :
    ∃ l1 l2, l = l1 ++ a :: l2 ∧ p a = true ∧ ∀ x ∈ l1, p x = false := by
  induction l with
  | nil => simp at h
  | cons b t ih =>
      by_cases hb : p b
      · rw [List.find?_cons_of_pos _ hb] at h
        obtain rfl : b = a := by injection h
        exact ⟨[], t, rfl, hb, by simp⟩
      · rw [List.find?_cons_of_neg _ hb] at h
        obtain ⟨l1, l2, rfl, hpa, hall⟩ := ih h
        refine ⟨b :: l1, l2, rfl, hpa, ?_⟩
        intro x hx
        rcases List.mem_cons.mp hx with rfl | hx
        · simpa using hb
        · exact hall x hx

/-! ## Claim theorems -/

/-- C2: evaluating the close-requested arm of `default_handler` on the two
relevant channel contents.  With the to-presenter channel disconnected (no
pending messages) the wait loop logs the improper-exit warning but its `Err`
arm contains no `break`, so the loop never completes and the OS thread never
reaches its terminal state; with a pending `ReadyToClose` (possibly after
other message kinds, which are discarded) the loop completes. -/
theorem close_wait_disconnect_stuck :
    (default_handler_close ([] : List (UserEvent Nat))).2 = CloseOutcome.stuck ∧
    (default_handler_close ([] : List (UserEvent Nat))).1 =
      [OsAction.exitTarget, OsAction.logWarn "User thread closed improperly!"] ∧
    (default_handler_close ([UserEvent.ReadyToClose] : List (UserEvent Nat))).2 =
      CloseOutcome.completed [] ∧
    (default_handler_close [UserEvent.RenderDataPrepared (3 : Nat), UserEvent.ReadyToClose]).2 =
      CloseOutcome.completed [] := by
  exact ⟨rfl, rfl, rfl, rfl⟩

/-- C7: reconfiguring with a zero-area size is rejected and leaves the
stored state unchanged, and a subsequent reconfigure with a non-zero size is
accepted and updates the stored surface-configuration width and height. -/
theorem reconfigure_zero_rejected (conn : GpuConnection) (s1 s2 : PhysicalSize)
    (h1 : s1.width = 0 ∨ s1.height = 0) (h2w : s2.width ≠ 0) (h2h : s2.height ≠ 0) :
    conn.reconfigure s1 = (conn, false) ∧
    ((conn.reconfigure s1).1.reconfigure s2).2 = true ∧
    ((conn.reconfigure s1).1.reconfigure s2).1.surface_config.width = s2.width ∧
    ((conn.reconfigure s1).1.reconfigure s2).1.surface_config.height = s2.height := by
  have hr : conn.reconfigure s1 = (conn, false) := by
    unfold GpuConnection.reconfigure
    rw [if_pos h1]
  have hn : ¬ (s2.width = 0 ∨ s2.height = 0) := by tauto
  refine ⟨hr, ?_, ?_, ?_⟩ <;> rw [hr] <;> unfold GpuConnection.reconfigure <;>
    rw [if_neg hn]

/-- C7 witness: the section 8 scenario.  A connection at 800 by 600 rejects a
reconfigure to 0 by 0 unchanged, and a following reconfigure to 1024 by 768
is accepted and stores 1024 by 768. -/
theorem reconfigure_zero_rejected_witness :
    sampleConnection.reconfigure ⟨0, 0⟩ = (sampleConnection, false) ∧
    ((sampleConnection.reconfigure ⟨0, 0⟩).1.reconfigure ⟨1024, 768⟩).2 = true ∧
    ((sampleConnection.reconfigure ⟨0, 0⟩).1.reconfigure ⟨1024, 768⟩).1.surface_config.width = 1024 ∧
    ((sampleConnection.reconfigure ⟨0, 0⟩).1.reconfigure ⟨1024, 768⟩).1.surface_config.height = 768 :=
  reconfigure_zero_rejected sampleConnection ⟨0, 0⟩ ⟨1024, 768⟩ (Or.inl rfl)
    (by decide) (by decide)

/-- C8 counterexample: a startup configuration that supplies one bind-group
layout produces a shared pipeline layout that contains no bind-group layouts
at all, so the layout is not built from the configured bind-group layouts
(lib.rs line 99 hard-codes an empty slice). -/
theorem pipeline_layout_drops_bind_groups :
    (makePipelineLayout
      { power_preference := 0, name := "Heatwave App", features := 0,
        bind_groups := [7], push_constants := [] }).bind_group_layouts ≠
    HeatwaveConfig.bind_groups
      { power_preference := 0, name := "Heatwave App", features := 0,
        bind_groups := [7], push_constants := [] } := by
  decide

/-- C8 (amended): the shared pipeline layout is built exactly once at
application construction, from the push-constant ranges supplied in the
startup configuration and a hard-coded empty bind-group-layout list (the
configured bind-group layouts are ignored), and no registry operation
mutates it afterwards. -/
theorem pipeline_layout_built_once (config : HeatwaveConfig) (conn : GpuConnection) :
    (HeatwaveApp.new_with_window config conn).pipeline_layout =
      { label := some "Heatwave Render Pipeline Layout"
        bind_group_layouts := []
        push_constant_ranges := config.push_constants } ∧
    (∀ (app : HeatwaveApp) (d : BufferDescriptor),
        (app.add_buffer d).2.pipeline_layout = app.pipeline_layout) ∧
    (∀ (app : HeatwaveApp) (d : RenderPipelineDescriptor),
        (app.add_render_pipeline d).2.pipeline_layout = app.pipeline_layout) ∧
    (∀ (app : HeatwaveApp) (d : ComputePipelineDescriptor),
        (app.add_compute_pipeline d).2.pipeline_layout = app.pipeline_layout) :=
  ⟨rfl, fun _ _ => rfl, fun _ _ => rfl, fun _ _ => rfl⟩

/-- C9: converting a simplified render-pipeline description that has a
fragment shader module but no fragment entry-point name panics at build time
(modelled as `none`); when a fragment entry-point name is supplied the
conversion succeeds. -/
theorem fragment_entry_point_required (s : SimpleRenderPipelineDescriptor) :
    (∀ m, s.fragment = some m → s.fragment_entry_point = none →
        s.toDescriptor = none) ∧
    (∀ ep, s.fragment_entry_point = some ep → s.toDescriptor.isSome = true) := by
  constructor
  · intro m hm hep
    simp [SimpleRenderPipelineDescriptor.toDescriptor, hm, hep]
  · intro ep hep
    cases hf : s.fragment <;>
      simp [SimpleRenderPipelineDescriptor.toDescriptor, hf, hep]

/-- C9 witness: the concrete simplified descriptor with a fragment module
and no entry-point name fails to convert; supplying the name makes the
conversion succeed. -/
theorem fragment_entry_point_required_witness :
    sampleSimpleDescriptor.toDescriptor = none ∧
    ({ sampleSimpleDescriptor with fragment_entry_point := some "fs_main" }
        : SimpleRenderPipelineDescriptor).toDescriptor.isSome = true :=
  ⟨(fragment_entry_point_required sampleSimpleDescriptor).1 2 rfl rfl,
   (fragment_entry_point_required
      { sampleSimpleDescriptor with fragment_entry_point := some "fs_main" }).2
      "fs_main" rfl⟩

/-- C4: when the fragment stage of a render-pipeline description has an
empty colour-target list, `add_render_pipeline` synthesizes exactly one
colour target whose format is the current surface format of the connection,
with REPLACE blending and all colour channels write-enabled; when the
fragment stage supplies targets, they pass through unchanged.  The stored
pipeline is exactly the substituted descriptor. -/
theorem fragment_target_synthesis (app : HeatwaveApp)
    (d : RenderPipelineDescriptor) (frag : FragmentState)
    (hf : d.fragment = some frag) :
    (frag.targets = [] →
       (buildRenderDescriptor app.pipeline_layout app.connection.surface_config d).fragment =
         some { frag with
                 targets := [some { format := app.connection.surface_config.format
                                    blend := some BlendState.REPLACE
                                    write_mask := ColorWrites.ALL }] }) ∧
    (frag.targets ≠ [] →
       (buildRenderDescriptor app.pipeline_layout app.connection.surface_config d).fragment =
         some frag) ∧
    (app.add_render_pipeline d).2.get_render_pipeline (app.add_render_pipeline d).1 =
       some (buildRenderDescriptor app.pipeline_layout app.connection.surface_config d) := by
  refine ⟨?_, ?_, ?_⟩
  · intro ht
    by_cases hl : d.layout.isNone <;>
      simp [buildRenderDescriptor, hl, hf, ht]
  · intro ht
    by_cases hl : d.layout.isNone <;>
      simp [buildRenderDescriptor, hl, hf, List.isEmpty_iff, ht]
  · simp only [HeatwaveApp.add_render_pipeline, HeatwaveApp.get_render_pipeline]
    rw [lookupEntry_cons, if_pos rfl]

/-- C4 witness: the synthesis conjunct evaluated on the concrete fresh
application and the concrete descriptor whose fragment targets are empty. -/
theorem fragment_target_synthesis_witness :
    (buildRenderDescriptor sampleApp.pipeline_layout
        sampleApp.connection.surface_config sampleRenderDescriptor).fragment =
      some { sampleFragment with
              targets := [some { format := sampleApp.connection.surface_config.format
                                 blend := some BlendState.REPLACE
                                 write_mask := ColorWrites.ALL }] } :=
  (fragment_target_synthesis sampleApp sampleRenderDescriptor sampleFragment rfl).1 rfl

/-- C5: a pipeline description (render or compute) that supplies no layout
is built with the shared pipeline layout of the application; for a compute
pipeline the layout substitution is the only change made; a description that
supplies its own layout keeps it. -/
theorem pipeline_layout_defaulting (app : HeatwaveApp)
    (rd : RenderPipelineDescriptor) (cd : ComputePipelineDescriptor) :
    (rd.layout = none →
       (buildRenderDescriptor app.pipeline_layout app.connection.surface_config rd).layout =
         some app.pipeline_layout) ∧
    (∀ l, rd.layout = some l →
       (buildRenderDescriptor app.pipeline_layout app.connection.surface_config rd).layout =
         some l) ∧
    (cd.layout = none →
       buildComputeDescriptor app.pipeline_layout cd =
         { cd with layout := some app.pipeline_layout }) ∧
    (∀ l, cd.layout = some l → buildComputeDescriptor app.pipeline_layout cd = cd) := by
  refine ⟨?_, ?_, ?_, ?_⟩
  · intro hl
    cases hfr : rd.fragment with
    | none => simp [buildRenderDescriptor, hl, hfr]
    | some frag =>
        by_cases ht : frag.targets.isEmpty <;>
          simp [buildRenderDescriptor, hl, hfr, ht]
  · intro l hl
    cases hfr : rd.fragment with
    | none => simp [buildRenderDescriptor, hl, hfr]
    | some frag =>
        by_cases ht : frag.targets.isEmpty <;>
          simp [buildRenderDescriptor, hl, hfr, ht]
  · intro hl
    simp [buildComputeDescriptor, hl]
  · intro l hl
    simp [buildComputeDescriptor, hl]

/-- C5 witness: the concrete render and compute descriptors with no layout
receive the shared layout of the concrete application. -/
theorem pipeline_layout_defaulting_witness :
    (buildRenderDescriptor sampleApp.pipeline_layout
        sampleApp.connection.surface_config sampleRenderDescriptor).layout =
      some sampleApp.pipeline_layout ∧
    buildComputeDescriptor sampleApp.pipeline_layout sampleComputeDescriptor =
      { sampleComputeDescriptor with layout := some sampleApp.pipeline_layout } :=
  ⟨(pipeline_layout_defaulting sampleApp sampleRenderDescriptor sampleComputeDescriptor).1 rfl,
   (pipeline_layout_defaulting sampleApp sampleRenderDescriptor sampleComputeDescriptor).2.2.1 rfl⟩

/-- C10: for every window size with zero width or zero height,
`GpuConnection::new` panics via the assertion with an empty trace of GPU
steps — no instance, surface, adapter or device work is attempted — instead
of returning one of the typed connection errors. -/
theorem zero_size_asserts_before_gpu_work (size : PhysicalSize) (env : GpuEnv)
    (h : size.width = 0 ∨ size.height = 0) :
    GpuConnection.new size env =
      (NewOutcome.panicked "Window size has to be above 0!", []) := by
  unfold GpuConnection.new
  rw [if_neg (by omega)]

/-- C10 witness: a 0 by 600 window panics with no GPU steps even in an
environment in which every external GPU call would succeed. -/
theorem zero_size_asserts_witness :
    GpuConnection.new ⟨0, 600⟩ sampleEnv =
      (NewOutcome.panicked "Window size has to be above 0!", []) :=
  zero_size_asserts_before_gpu_work ⟨0, 600⟩ sampleEnv (Or.inl rfl)

/-- C6: with non-empty supported-format and alpha-mode lists (the backend
guarantees both for a compatible surface), connection setup builds a surface
configuration whose format is the first sRGB-capable supported format, or
the first supported format when none is sRGB; its present mode is
vsync-always-on, its alpha mode is the first reported option, and its
desired maximum frame latency is 2. -/
theorem surface_configuration_selection (caps : SurfaceCapabilities)
    (size : PhysicalSize) (hf : caps.formats ≠ []) (ha : caps.alpha_modes ≠ []) :
    (buildSurfaceConfiguration caps size).isSome = true ∧
    (∀ cfg, buildSurfaceConfiguration caps size = some cfg →
       ((∃ f ∈ caps.formats, f.is_srgb = true) →
          ∃ l1 l2, caps.formats = l1 ++ cfg.format :: l2 ∧
            cfg.format.is_srgb = true ∧ ∀ g ∈ l1, g.is_srgb = false) ∧
       ((∀ f ∈ caps.formats, f.is_srgb = false) →
          caps.formats.head? = some cfg.format) ∧
       cfg.usage = TextureUsages.RENDER_ATTACHMENT ∧
       cfg.present_mode = PresentMode.AutoVsync ∧
       caps.alpha_modes.head? = some cfg.alpha_mode ∧
       cfg.desired_maximum_frame_latency = 2 ∧
       cfg.width = size.width ∧ cfg.height = size.height) := by
  obtain ⟨alpha, alphas, hal⟩ := List.exists_cons_of_ne_nil ha
  obtain ⟨f0, fmts, hfl⟩ := List.exists_cons_of_ne_nil hf
  cases hfind : caps.formats.find? (fun f => f.is_srgb) with
  | some f =>
      have hbuild : buildSurfaceConfiguration caps size =
          some { usage := TextureUsages.RENDER_ATTACHMENT
                 format := f
                 width := size.width
                 height := size.height
                 present_mode := PresentMode.AutoVsync
                 alpha_mode := alpha
                 view_formats := []
                 desired_maximum_frame_latency := 2 } := by
        unfold buildSurfaceConfiguration chooseSurfaceFormat
        rw [hfind, hal]
        rfl
      refine ⟨by rw [hbuild]; rfl, ?_⟩
      intro cfg hcfg
      rw [hbuild] at hcfg
      obtain rfl : _ = cfg := Option.some.inj hcfg
      obtain ⟨l1, l2, hsplit, hp, hnone⟩ := find_first_split _ _ _ hfind
      refine ⟨fun _ => ⟨l1, l2, hsplit, hp, hnone⟩, ?_, rfl, rfl, by rw [hal]; rfl, rfl, rfl, rfl⟩
      intro hall
      exact absurd (hall f (by rw [hsplit]; exact List.mem_append_right l1 (List.mem_cons_self f l2))) (by simp [hp])
  | none =>
      have hbuild : buildSurfaceConfiguration caps size =
          some { usage := TextureUsages.RENDER_ATTACHMENT
                 format := f0
                 width := size.width
                 height := size.height
                 present_mode := PresentMode.AutoVsync
                 alpha_mode := alpha
                 view_formats := []
                 desired_maximum_frame_latency := 2 } := by
        unfold buildSurfaceConfiguration chooseSurfaceFormat
        rw [hfind, hal, hfl]
        rfl
      have hallfalse : ∀ g ∈ caps.formats, g.is_srgb = false := by
        intro g hg
        have := List.find?_eq_none.mp hfind g hg
        simpa using this
      refine ⟨by rw [hbuild]; rfl, ?_⟩
      intro cfg hcfg
      rw [hbuild] at hcfg
      obtain rfl : _ = cfg := Option.some.inj hcfg
      refine ⟨?_, fun _ => by rw [hfl]; rfl, rfl, rfl, by rw [hal]; rfl, rfl, rfl, rfl⟩
      intro hex
      obtain ⟨g, hg, hgs⟩ := hex
      exact absurd hgs (by simp [hallfalse g hg])

/-- C6 witness: with one non-sRGB format before an sRGB format and one alpha
mode, the configuration is built. -/
theorem surface_configuration_selection_witness :
    (buildSurfaceConfiguration sampleCaps ⟨800, 600⟩).isSome = true ∧
    sampleCaps.formats ≠ [] :=
  ⟨(surface_configuration_selection sampleCaps ⟨800, 600⟩ (by decide) (by decide)).1,
   by decide⟩

/-- Trajectory of a sequence of `add_buffer` calls from an arbitrary state:
the issued handles count up from the current counter, the counter advances
by the number of adds, and lookup resolves the new handles to the descriptors
added for them, leaving all other lookups unchanged. -/
theorem addBuffers_trajectory (ds : List BufferDescriptor) (app : HeatwaveApp) :
    (app.addBuffers ds).1 = (List.range ds.length).map (fun i => app.next_buffer_id + i) ∧
    (app.addBuffers ds).2.next_buffer_id = app.next_buffer_id + ds.length ∧
    ∀ i, (app.addBuffers ds).2.get_buffer i =
      if app.next_buffer_id ≤ i ∧ i < app.next_buffer_id + ds.length
      then ds[i - app.next_buffer_id]?
      else app.get_buffer i := by
  induction ds generalizing app with
  | nil =>
      refine ⟨rfl, rfl, ?_⟩
      intro i
      rw [if_neg (by simp only [List.length_nil]; omega)]
      rfl
  | cons d rest ih =>
      obtain ⟨ih1, ih2, ih3⟩ := ih (app.add_buffer d).2
      have hnext : (app.add_buffer d).2.next_buffer_id = app.next_buffer_id + 1 := rfl
      refine ⟨?_, ?_, ?_⟩
      · show app.next_buffer_id :: ((app.add_buffer d).2.addBuffers rest).1 = _
        rw [ih1, hnext, List.length_cons, List.range_succ_eq_map, List.map_cons, List.map_map]
        refine congrArg₂ _ (by omega) ?_
        refine List.map_congr_left ?_
        intro a _
        show app.next_buffer_id + 1 + a = app.next_buffer_id + (a + 1)
        omega
      · show ((app.add_buffer d).2.addBuffers rest).2.next_buffer_id = _
        rw [ih2, hnext, List.length_cons]
        omega
      · intro i
        show ((app.add_buffer d).2.addBuffers rest).2.get_buffer i = _
        rw [ih3 i, hnext, List.length_cons]
        have happ1 : (app.add_buffer d).2.get_buffer i =
            if app.next_buffer_id = i then some d else app.get_buffer i :=
          lookupEntry_cons _ _ _ _
        by_cases h1 : app.next_buffer_id + 1 ≤ i ∧ i < app.next_buffer_id + 1 + rest.length
        · rw [if_pos h1, if_pos (by omega)]
          have hsub : i - app.next_buffer_id = (i - (app.next_buffer_id + 1)) + 1 := by omega
          rw [hsub, List.getElem?_cons_succ]
        · rw [if_neg h1, happ1]
          by_cases h2 : app.next_buffer_id = i
          · rw [if_pos h2, if_pos (by omega)]
            have hsub : i - app.next_buffer_id = 0 := by omega
            rw [hsub, List.getElem?_cons_zero]
          · rw [if_neg h2, if_neg (by omega)]

/-- Trajectory of a sequence of `add_render_pipeline` calls: as for buffers,
with each stored pipeline being the substituted descriptor; the shared
layout and the connection never change. -/
theorem addRenderPipelines_trajectory (ds : List RenderPipelineDescriptor)
    (app : HeatwaveApp) :
    (app.addRenderPipelines ds).1 =
      (List.range ds.length).map (fun i => app.next_render_id + i) ∧
    (app.addRenderPipelines ds).2.next_render_id = app.next_render_id + ds.length ∧
    (app.addRenderPipelines ds).2.pipeline_layout = app.pipeline_layout ∧
    (app.addRenderPipelines ds).2.connection = app.connection ∧
    ∀ i, (app.addRenderPipelines ds).2.get_render_pipeline i =
      if app.next_render_id ≤ i ∧ i < app.next_render_id + ds.length
      then (ds[i - app.next_render_id]?).map
             (buildRenderDescriptor app.pipeline_layout app.connection.surface_config)
      else app.get_render_pipeline i := by
  induction ds generalizing app with
  | nil =>
      refine ⟨rfl, rfl, rfl, rfl, ?_⟩
      intro i
      rw [if_neg (by simp only [List.length_nil]; omega)]
      rfl
  | cons d rest ih =>
      obtain ⟨ih1, ih2, ih3, ih4, ih5⟩ := ih (app.add_render_pipeline d).2
      have hnext : (app.add_render_pipeline d).2.next_render_id = app.next_render_id + 1 := rfl
      have hlay : (app.add_render_pipeline d).2.pipeline_layout = app.pipeline_layout := rfl
      have hconn : (app.add_render_pipeline d).2.connection = app.connection := rfl
      refine ⟨?_, ?_, ?_, ?_, ?_⟩
      · show app.next_render_id :: ((app.add_render_pipeline d).2.addRenderPipelines rest).1 = _
        rw [ih1, hnext, List.length_cons, List.range_succ_eq_map, List.map_cons, List.map_map]
        refine congrArg₂ _ (by omega) ?_
        refine List.map_congr_left ?_
        intro a _
        show app.next_render_id + 1 + a = app.next_render_id + (a + 1)
        omega
      · show ((app.add_render_pipeline d).2.addRenderPipelines rest).2.next_render_id = _
        rw [ih2, hnext, List.length_cons]
        omega
      · show ((app.add_render_pipeline d).2.addRenderPipelines rest).2.pipeline_layout = _
        rw [ih3, hlay]
      · show ((app.add_render_pipeline d).2.addRenderPipelines rest).2.connection = _
        rw [ih4, hconn]
      · intro i
        show ((app.add_render_pipeline d).2.addRenderPipelines rest).2.get_render_pipeline i = _
        rw [ih5 i, hnext, hlay, hconn, List.length_cons]
        have happ1 : (app.add_render_pipeline d).2.get_render_pipeline i =
            if app.next_render_id = i
            then some (buildRenderDescriptor app.pipeline_layout
                         app.connection.surface_config d)
            else app.get_render_pipeline i :=
          lookupEntry_cons _ _ _ _
        by_cases h1 : app.next_render_id + 1 ≤ i ∧ i < app.next_render_id + 1 + rest.length
        · rw [if_pos h1, if_pos (by omega)]
          have hsub : i - app.next_render_id = (i - (app.next_render_id + 1)) + 1 := by omega
          rw [hsub, List.getElem?_cons_succ]
        · rw [if_neg h1, happ1]
          by_cases h2 : app.next_render_id = i
          · rw [if_pos h2, if_pos (by omega)]
            have hsub : i - app.next_render_id = 0 := by omega
            rw [hsub, List.getElem?_cons_zero]
            rfl
          · rw [if_neg h2, if_neg (by omega)]

/-- Trajectory of a sequence of `add_compute_pipeline` calls. -/
theorem addComputePipelines_trajectory (ds : List ComputePipelineDescriptor)
    (app : HeatwaveApp) :
    (app.addComputePipelines ds).1 =
      (List.range ds.length).map (fun i => app.next_compute_id + i) ∧
    (app.addComputePipelines ds).2.next_compute_id = app.next_compute_id + ds.length ∧
    (app.addComputePipelines ds).2.pipeline_layout = app.pipeline_layout ∧
    ∀ i, (app.addComputePipelines ds).2.get_compute_pipeline i =
      if app.next_compute_id ≤ i ∧ i < app.next_compute_id + ds.length
      then (ds[i - app.next_compute_id]?).map
             (buildComputeDescriptor app.pipeline_layout)
      else app.get_compute_pipeline i := by
  induction ds generalizing app with
  | nil =>
      refine ⟨rfl, rfl, rfl, ?_⟩
      intro i
      rw [if_neg (by simp only [List.length_nil]; omega)]
      rfl
  | cons d rest ih =>
      obtain ⟨ih1, ih2, ih3, ih4⟩ := ih (app.add_compute_pipeline d).2
      have hnext : (app.add_compute_pipeline d).2.next_compute_id = app.next_compute_id + 1 := rfl
      have hlay : (app.add_compute_pipeline d).2.pipeline_layout = app.pipeline_layout := rfl
      refine ⟨?_, ?_, ?_, ?_⟩
      · show app.next_compute_id :: ((app.add_compute_pipeline d).2.addComputePipelines rest).1 = _
        rw [ih1, hnext, List.length_cons, List.range_succ_eq_map, List.map_cons, List.map_map]
        refine congrArg₂ _ (by omega) ?_
        refine List.map_congr_left ?_
        intro a _
        show app.next_compute_id + 1 + a = app.next_compute_id + (a + 1)
        omega
      · show ((app.add_compute_pipeline d).2.addComputePipelines rest).2.next_compute_id = _
        rw [ih2, hnext, List.length_cons]
        omega
      · show ((app.add_compute_pipeline d).2.addComputePipelines rest).2.pipeline_layout = _
        rw [ih3, hlay]
      · intro i
        show ((app.add_compute_pipeline d).2.addComputePipelines rest).2.get_compute_pipeline i = _
        rw [ih4 i, hnext, hlay, List.length_cons]
        have happ1 : (app.add_compute_pipeline d).2.get_compute_pipeline i =
            if app.next_compute_id = i
            then some (buildComputeDescriptor app.pipeline_layout d)
            else app.get_compute_pipeline i :=
          lookupEntry_cons _ _ _ _
        by_cases h1 : app.next_compute_id + 1 ≤ i ∧ i < app.next_compute_id + 1 + rest.length
        · rw [if_pos h1, if_pos (by omega)]
          have hsub : i - app.next_compute_id = (i - (app.next_compute_id + 1)) + 1 := by omega
          rw [hsub, List.getElem?_cons_succ]
        · rw [if_neg h1, happ1]
          by_cases h2 : app.next_compute_id = i
          · rw [if_pos h2, if_pos (by omega)]
            have hsub : i - app.next_compute_id = 0 := by omega
            rw [hsub, List.getElem?_cons_zero]
            rfl
          · rw [if_neg h2, if_neg (by omega)]

/-- C3: for every sequence of adds on one registry namespace of a freshly
constructed application, the returned handles are the strictly increasing
consecutive integers 0, 1, 2, ...; every issued handle resolves to the object
created for it at add time (for pipelines, the descriptor after
substitution); a never-issued handle resolves to none; and no later add
removes or replaces an existing entry, since every earlier handle still
resolves in the final state. -/
theorem registry_handle_contract (config : HeatwaveConfig) (conn : GpuConnection)
    (bs : List BufferDescriptor) (rs : List RenderPipelineDescriptor)
    (cs : List ComputePipelineDescriptor) :
    ((HeatwaveApp.new_with_window config conn).addBuffers bs).1 = List.range bs.length ∧
    (∀ i, ((HeatwaveApp.new_with_window config conn).addBuffers bs).2.get_buffer i = bs[i]?) ∧
    ((HeatwaveApp.new_with_window config conn).addRenderPipelines rs).1 = List.range rs.length ∧
    (∀ i, ((HeatwaveApp.new_with_window config conn).addRenderPipelines rs).2.get_render_pipeline i =
       (rs[i]?).map (buildRenderDescriptor (makePipelineLayout config) conn.surface_config)) ∧
    ((HeatwaveApp.new_with_window config conn).addComputePipelines cs).1 = List.range cs.length ∧
    (∀ i, ((HeatwaveApp.new_with_window config conn).addComputePipelines cs).2.get_compute_pipeline i =
       (cs[i]?).map (buildComputeDescriptor (makePipelineLayout config))) := by
  refine ⟨?_, ?_, ?_, ?_, ?_, ?_⟩
  · rw [(addBuffers_trajectory bs _).1]
    rw [show (HeatwaveApp.new_with_window config conn).next_buffer_id = 0 from rfl]
    rw [List.map_congr_left (fun a _ => Nat.zero_add a)]
    exact List.map_id' _
  · intro i
    rw [(addBuffers_trajectory bs _).2.2 i]
    rw [show (HeatwaveApp.new_with_window config conn).next_buffer_id = 0 from rfl]
    simp only [Nat.zero_le, true_and, Nat.zero_add, Nat.sub_zero]
    by_cases h : i < bs.length
    · rw [if_pos h]
    · rw [if_neg h]
      rw [show (HeatwaveApp.new_with_window config conn).get_buffer i = none from rfl]
      exact (List.getElem?_eq_none (by omega)).symm
  · rw [(addRenderPipelines_trajectory rs _).1]
    rw [show (HeatwaveApp.new_with_window config conn).next_render_id = 0 from rfl]
    rw [List.map_congr_left (fun a _ => Nat.zero_add a)]
    exact List.map_id' _
  · intro i
    rw [(addRenderPipelines_trajectory rs _).2.2.2.2 i]
    rw [show (HeatwaveApp.new_with_window config conn).next_render_id = 0 from rfl]
    simp only [Nat.zero_le, true_and, Nat.zero_add, Nat.sub_zero]
    by_cases h : i < rs.length
    · rw [if_pos h]
      rfl
    · rw [if_neg h]
      rw [show (HeatwaveApp.new_with_window config conn).get_render_pipeline i = none from rfl]
      rw [List.getElem?_eq_none (show rs.length ≤ i by omega)]
      rfl
  · rw [(addComputePipelines_trajectory cs _).1]
    rw [show (HeatwaveApp.new_with_window config conn).next_compute_id = 0 from rfl]
    rw [List.map_congr_left (fun a _ => Nat.zero_add a)]
    exact List.map_id' _
  · intro i
    rw [(addComputePipelines_trajectory cs _).2.2.2 i]
    rw [show (HeatwaveApp.new_with_window config conn).next_compute_id = 0 from rfl]
    simp only [Nat.zero_le, true_and, Nat.zero_add, Nat.sub_zero]
    by_cases h : i < cs.length
    · rw [if_pos h]
      rfl
    · rw [if_neg h]
      rw [show (HeatwaveApp.new_with_window config conn).get_compute_pipeline i = none from rfl]
      rw [List.getElem?_eq_none (show cs.length ≤ i by omega)]
      rfl

/-- Behaviour of the redraw wait loop over any channel content: it sends
nothing itself; when a render-data response is pending it invokes the render
callback exactly once, with the payload of the first such response, and does
not panic; when none is pending (the channel runs out) it panics exactly
once and never invokes the callback; and it logs exactly one error per
discarded message read before the first response. -/
theorem redrawLoop_spec {R : Type} (incoming : List (UserEvent R)) :
    sendCount (redrawLoop incoming) = 0 ∧
    (∀ d, firstRenderData incoming = some d →
       renderCount (redrawLoop incoming) = 1 ∧
       OsAction.invokeRender d ∈ redrawLoop incoming ∧
       panicCount (redrawLoop incoming) = 0) ∧
    (firstRenderData incoming = none →
       renderCount (redrawLoop incoming) = 0 ∧
       panicCount (redrawLoop incoming) = 1) ∧
    errorLogCount (redrawLoop incoming) =
      (incoming.takeWhile (fun m => !m.isRenderData)).length := by
  induction incoming with
  | nil =>
      refine ⟨rfl, ?_, fun _ => ⟨rfl, rfl⟩, rfl⟩
      intro d hd
      simp [firstRenderData] at hd
  | cons m rest ih =>
      obtain ⟨ih1, ih2, ih3, ih4⟩ := ih
      cases m with
      | RenderDataPrepared d0 =>
          refine ⟨rfl, ?_, ?_, rfl⟩
          · intro d hd
            obtain rfl : d0 = d := by
              simpa [firstRenderData] using hd
            exact ⟨rfl, by simp [redrawLoop], rfl⟩
          · intro hd
            simp [firstRenderData] at hd
      | ReadyToClose =>
          have hfirst : firstRenderData (UserEvent.ReadyToClose :: rest) =
              firstRenderData rest := rfl
          have hloop : redrawLoop (UserEvent.ReadyToClose :: rest) =
              OsAction.logError "Desync between render and user event thread! Ignoring non-render data response from user"
                :: redrawLoop rest := rfl
          refine ⟨?_, ?_, ?_, ?_⟩
          · rw [hloop]
            simp only [sendCount, List.countP_cons, OsAction.isSend]
            simpa [sendCount] using ih1
          · intro d hd
            rw [hfirst] at hd
            obtain ⟨h1, h2, h3⟩ := ih2 d hd
            refine ⟨?_, ?_, ?_⟩
            · rw [hloop]
              simp only [renderCount, List.countP_cons, OsAction.isRender]
              simpa [renderCount] using h1
            · rw [hloop]
              exact List.mem_cons_of_mem _ h2
            · rw [hloop]
              simp only [panicCount, List.countP_cons, OsAction.isPanic]
              simpa [panicCount] using h3
          · intro hd
            rw [hfirst] at hd
            obtain ⟨h1, h2⟩ := ih3 hd
            constructor
            · rw [hloop]
              simp only [renderCount, List.countP_cons, OsAction.isRender]
              simpa [renderCount] using h1
            · rw [hloop]
              simp only [panicCount, List.countP_cons, OsAction.isPanic]
              simpa [panicCount] using h2
          · rw [hloop]
            simp only [errorLogCount, List.countP_cons, OsAction.isLogError]
            rw [show (UserEvent.ReadyToClose :: rest).takeWhile (fun m => !m.isRenderData) =
                  UserEvent.ReadyToClose :: rest.takeWhile (fun m => !m.isRenderData) from rfl]
            rw [List.length_cons]
            simpa [errorLogCount] using ih4

/-- C1: for every redraw-requested event, the default handler sends exactly
one render-data request to the user thread (as its first action, before
blocking); while blocked, every message that is not a render-data response
is discarded with one error log each and waiting continues; the render
callback is invoked exactly once, with the first pending response, and no
panic occurs; when the channel is disconnected with no response pending, the
handler panics (fatal) and the callback is never invoked. -/
theorem redraw_exchange {R : Type} (incoming : List (UserEvent R)) :
    sendCount (default_handler_redraw incoming) = 1 ∧
    (default_handler_redraw incoming).head? =
      some (OsAction.sendToUser WindowEventMsg.RequestRenderData) ∧
    (∀ d, firstRenderData incoming = some d →
       renderCount (default_handler_redraw incoming) = 1 ∧
       OsAction.invokeRender d ∈ default_handler_redraw incoming ∧
       panicCount (default_handler_redraw incoming) = 0) ∧
    (firstRenderData incoming = none →
       renderCount (default_handler_redraw incoming) = 0 ∧
       panicCount (default_handler_redraw incoming) = 1) ∧
    errorLogCount (default_handler_redraw incoming) =
      (incoming.takeWhile (fun m => !m.isRenderData)).length := by
  obtain ⟨h1, h2, h3, h4⟩ := redrawLoop_spec incoming
  have hsplit : default_handler_redraw incoming =
      OsAction.sendToUser WindowEventMsg.RequestRenderData :: redrawLoop incoming := rfl
  refine ⟨?_, ?_, ?_, ?_, ?_⟩
  · rw [hsplit]
    simp only [sendCount, List.countP_cons, OsAction.isSend]
    simpa [sendCount] using h1
  · rw [hsplit]
    rfl
  · intro d hd
    obtain ⟨g1, g2, g3⟩ := h2 d hd
    refine ⟨?_, ?_, ?_⟩
    · rw [hsplit]
      simp only [renderCount, List.countP_cons, OsAction.isRender]
      simpa [renderCount] using g1
    · rw [hsplit]
      exact List.mem_cons_of_mem _ g2
    · rw [hsplit]
      simp only [panicCount, List.countP_cons, OsAction.isPanic]
      simpa [panicCount] using g3
  · intro hd
    obtain ⟨g1, g2⟩ := h3 hd
    constructor
    · rw [hsplit]
      simp only [renderCount, List.countP_cons, OsAction.isRender]
      simpa [renderCount] using g1
    · rw [hsplit]
      simp only [panicCount, List.countP_cons, OsAction.isPanic]
      simpa [panicCount] using g2
  · rw [hsplit]
    simp only [errorLogCount, List.countP_cons, OsAction.isLogError]
    simpa [errorLogCount] using h4

/-- C1 witness: with one stray message followed by a render-data response,
the handler sends one request, discards the stray message with one error
log, invokes the render callback exactly once with the response payload, and
does not panic. -/
theorem redraw_exchange_witness :
    sendCount (default_handler_redraw [UserEvent.ReadyToClose, UserEvent.RenderDataPrepared (7 : Nat)]) = 1 ∧
    renderCount (default_handler_redraw [UserEvent.ReadyToClose, UserEvent.RenderDataPrepared (7 : Nat)]) = 1 ∧
    OsAction.invokeRender 7 ∈ default_handler_redraw [UserEvent.ReadyToClose, UserEvent.RenderDataPrepared (7 : Nat)] ∧
    panicCount (default_handler_redraw [UserEvent.ReadyToClose, UserEvent.RenderDataPrepared (7 : Nat)]) = 0 ∧
    errorLogCount (default_handler_redraw [UserEvent.ReadyToClose, UserEvent.RenderDataPrepared (7 : Nat)]) = 1 :=
  ⟨(redraw_exchange [UserEvent.ReadyToClose, UserEvent.RenderDataPrepared (7 : Nat)]).1,
   ((redraw_exchange [UserEvent.ReadyToClose, UserEvent.RenderDataPrepared (7 : Nat)]).2.2.1 7 rfl).1,
   ((redraw_exchange [UserEvent.ReadyToClose, UserEvent.RenderDataPrepared (7 : Nat)]).2.2.1 7 rfl).2.1,
   ((redraw_exchange [UserEvent.ReadyToClose, UserEvent.RenderDataPrepared (7 : Nat)]).2.2.1 7 rfl).2.2,
   (redraw_exchange [UserEvent.ReadyToClose, UserEvent.RenderDataPrepared (7 : Nat)]).2.2.2.2⟩
